import Mathlib

/-!
Verification development for the `TouchHandler` unit (src/src/TouchHandler.ts):
translation of local pointer input into normalized touch records for a remote
screen.  The definitions below are a shallow embedding of the TypeScript
source: numbers become `ℚ` (the source's arithmetic on the paths studied here
is exact on rationals; a separate `JSNum` model covers IEEE special values
where division by zero matters), JavaScript `Map`s become association lists
with JS `Map` semantics, DOM-provided quantities (client box, offsets,
scroll) become explicit parameters, and the class's static mutable fields
become explicit state records threaded through the functions.
-/

/-- Modelled from the spec: `Point {x, y}` — a pure value type (the source
imports it from src/Point.ts, which is not under src/). -/
structure Point where
  x : ℚ
  y : ℚ
deriving DecidableEq, Repr

/-- Modelled from the spec: `Size {width, height}` (src/Size.ts is not under
src/). -/
structure Size where
  width : ℚ
  height : ℚ
deriving DecidableEq, Repr

/-- Modelled from the spec: `Position` = a point tagged with the screen size
it is relative to (src/Position.ts is not under src/). -/
structure Position where
  point : Point
  screenSize : Size
deriving DecidableEq, Repr

/-- Modelled from the spec: the remote-video-size provider; `ScreenInfo`
(src/ScreenInfo.ts is not under src/) carries the current video size. -/
structure ScreenInfo where
  videoSize : Size
deriving DecidableEq, Repr

/-- Modelled from the spec: `MotionEvent.ACTION_DOWN` (src/MotionEvent.ts is
not under src/); the spec's ActionKind DOWN. -/
def ACTION_DOWN : ℕ := 0

/-- Modelled from the spec: `MotionEvent.ACTION_UP`; the spec's ActionKind UP. -/
def ACTION_UP : ℕ := 1

/-- Modelled from the spec: `MotionEvent.ACTION_MOVE`; the spec's ActionKind MOVE. -/
def ACTION_MOVE : ℕ := 2

/-- Modelled from the spec: `MotionEvent.BUTTON_TERTIARY` (src/MotionEvent.ts
is not under src/). The claims never depend on its numeric value. -/
def BUTTON_TERTIARY : ℕ := 4

/-- `EVENT_ACTION_MAP` of TouchHandler.ts: the fixed event-type → action
table; absent keys are `undefined` in JS, hence `Option` here. -/
def EVENT_ACTION_MAP : String → Option ℕ
  | "touchstart" => some ACTION_DOWN
  | "touchend" => some ACTION_UP
  | "touchmove" => some ACTION_MOVE
  | "touchcancel" => some ACTION_UP
  | "mousedown" => some ACTION_DOWN
  | "mousemove" => some ACTION_MOVE
  | "mouseup" => some ACTION_UP
  | _ => none

/-- `BUTTONS_MAP` of TouchHandler.ts: raw button index → button mask;
unmapped indices are `undefined` in JS, hence `Option`. -/
def BUTTONS_MAP : ℕ → Option ℕ
  | 0 => some 17
  | 1 => some BUTTON_TERTIARY
  | 2 => some 26
  | _ => none

/-! ### JavaScript `Map` as an association list

Raw touch identifiers and pointer ids are both JS numbers; the source treats
them as opaque non-negative keys, so both are `ℕ` here.  `mapSet` follows JS
`Map.set` (replace if present, else append); `mapDelete` follows
`Map.delete`. -/

def mapHas (m : List (ℕ × ℕ)) (k : ℕ) : Bool :=
  m.any (fun kv => kv.1 == k)

def mapGet (m : List (ℕ × ℕ)) (k : ℕ) : Option ℕ :=
  (m.find? (fun kv => kv.1 == k)).map (fun kv => kv.2)

def mapSet (m : List (ℕ × ℕ)) (k v : ℕ) : List (ℕ × ℕ) :=
  if mapHas m k then m.map (fun kv => if kv.1 == k then (k, v) else kv)
  else m ++ [(k, v)]

def mapDelete (m : List (ℕ × ℕ)) (k : ℕ) : List (ℕ × ℕ) :=
  m.filter (fun kv => kv.1 != k)

/-- The allocator's state: the two static maps `idToPointerMap`
(raw identifier → pointer id) and `pointerToIdMap` (pointer id → raw
identifier) of TouchHandler.ts. -/
structure AllocState where
  idToPointerMap : List (ℕ × ℕ)
  pointerToIdMap : List (ℕ × ℕ)
deriving DecidableEq, Repr

/-- The `while (this.idToPointerMap.has(pointerId)) pointerId++;` loop of
`getPointerId`, searching upward from `p` for a key absent from `m`.  The
source's loop is unbounded; here it carries fuel, and `m.length` fuel always
suffices (`findFree_exists_free` below), so `findFree m m.length 0` is
extensionally the source's loop. -/
def findFree (m : List (ℕ × ℕ)) : ℕ → ℕ → ℕ
  | 0, p => p
  | fuel + 1, p => if mapHas m p then findFree m fuel (p + 1) else p

/-- `getPointerId(type, identifier)` of TouchHandler.ts: returns the pointer
id and the updated pair of maps.  Note the source's free-slot search probes
`idToPointerMap` (keyed by raw identifiers), not `pointerToIdMap`. -/
def getPointerId (type : String) (identifier : ℕ) (s : AllocState) :
    ℕ × AllocState :=
  match mapGet s.idToPointerMap identifier with
  | some pointerId =>
      if type = "touchend" ∨ type = "touchcancel" then
        (pointerId, ⟨mapDelete s.idToPointerMap identifier,
                     mapDelete s.pointerToIdMap pointerId⟩)
      else
        (pointerId, s)
  | none =>
      let pointerId := findFree s.idToPointerMap s.idToPointerMap.length 0
      (pointerId, ⟨mapSet s.idToPointerMap identifier pointerId,
                   mapSet s.pointerToIdMap pointerId identifier⟩)

/-! ### Coordinate mapping -/

/-- The `Touch` interface of TouchHandler.ts: `{action, position, buttons}`;
`buttons` may be `undefined` (unmapped button index). -/
structure Touch where
  action : ℕ
  position : Position
  buttons : Option ℕ
deriving DecidableEq, Repr

/-- The `TouchOnClient` interface of TouchHandler.ts: the effective
(letterbox-corrected) client box dimensions plus the computed touch. -/
structure TouchOnClient where
  clientWidth : ℚ
  clientHeight : ℚ
  touch : Touch
deriving DecidableEq, Repr

/-- The `CommonTouchAndMouse` interface of TouchHandler.ts, minus the DOM
`target` reference (the target's layout data appears as `TargetEnv`). -/
structure CommonTouchAndMouse where
  clientX : ℚ
  clientY : ℚ
  type : String
  button : ℕ
deriving DecidableEq, Repr

/-- The DOM-provided layout quantities read by `calculateCoordinates`: the
page's scroll offsets and the target element's offset position and client
box.  In the source these are read from `document` and `e.target`; the
shallow embedding passes them explicitly. -/
structure TargetEnv where
  scrollTop : ℚ
  scrollLeft : ℚ
  offsetTop : ℚ
  offsetLeft : ℚ
  clientWidth : ℚ
  clientHeight : ℚ
deriving DecidableEq, Repr

/-- JavaScript `Math.round` on a finite number: round half towards positive
infinity, `⌊q + 1/2⌋`. -/
def jsRound (q : ℚ) : ℤ := ⌊q + 1 / 2⌋

/-- `calculateCoordinates(e, screenInfo)` of TouchHandler.ts over exact
rational arithmetic.  `screenInfo` is `Option` because the source checks
`!screenInfo`.  This model is faithful to the source's IEEE arithmetic
whenever the divisors involved (`clientHeight`, `clientWidth`, the video
aspect) are nonzero and the values exact; the zero-layout case is treated by
the separate `calculateCoordinatesJS` model of IEEE special values. -/
def calculateCoordinates (e : CommonTouchAndMouse) (screenInfo : Option ScreenInfo)
    (env : TargetEnv) : Option TouchOnClient :=
  match EVENT_ACTION_MAP e.type, screenInfo with
  | some action, some si =>
    let width := si.videoSize.width
    let height := si.videoSize.height
    let clientWidth := env.clientWidth
    let clientHeight := env.clientHeight
    let touchX := e.clientX - env.offsetLeft + env.scrollLeft
    let touchY := e.clientY - env.offsetTop + env.scrollTop
    let eps : ℚ := 100000
    let aspect := width / height
    let shouldBe := jsRound (eps * aspect)
    let haveNow := jsRound (eps * clientWidth / clientHeight)
    if shouldBe > haveNow then
      let realHeight : ℚ := (⌈clientWidth / aspect⌉ : ℤ)
      let top := (clientHeight - realHeight) / 2
      if touchY < top ∨ touchY > top + realHeight then none
      else
        let touchY := touchY - top
        let clientHeight := realHeight
        some ⟨clientWidth, clientHeight,
          ⟨action,
           ⟨⟨touchX * width / clientWidth, touchY * height / clientHeight⟩,
            ⟨width, height⟩⟩,
           BUTTONS_MAP e.button⟩⟩
    else if shouldBe < haveNow then
      let realWidth : ℚ := (⌈clientHeight * aspect⌉ : ℤ)
      let left := (clientWidth - realWidth) / 2
      if touchX < left ∨ touchX > left + realWidth then none
      else
        let touchX := touchX - left
        let clientWidth := realWidth
        some ⟨clientWidth, clientHeight,
          ⟨action,
           ⟨⟨touchX * width / clientWidth, touchY * height / clientHeight⟩,
            ⟨width, height⟩⟩,
           BUTTONS_MAP e.button⟩⟩
    else
      some ⟨clientWidth, clientHeight,
        ⟨action,
         ⟨⟨touchX * width / clientWidth, touchY * height / clientHeight⟩,
          ⟨width, height⟩⟩,
         BUTTONS_MAP e.button⟩⟩
  | _, _ => none

/-! ### Mouse path: multi-touch simulation (`getTouch`) -/

/-- The simulation-related static fields of TouchHandler.ts:
`multiTouchActive`, `multiTouchCenter` (JS `undefined` becomes `none`) and
`multiTouchShift`. -/
structure SimState where
  multiTouchActive : Bool
  multiTouchCenter : Option Point
  multiTouchShift : Bool
deriving DecidableEq, Repr

/-- A mouse event as consumed by `getTouch`: the `CommonTouchAndMouse`
fields plus the two modifier flags. -/
structure MouseEventModel where
  clientX : ℚ
  clientY : ℚ
  type : String
  button : ℕ
  ctrlKey : Bool
  shiftKey : Bool
deriving DecidableEq, Repr

/-- `getTouch(e, screenInfo)` of TouchHandler.ts.  The static simulation
state is threaded explicitly; the `clearCanvas` call on the reset path only
touches the drawing surface (it never mutates `dirtyPlace`, see
`clearCanvas` below), so it contributes no state change here. -/
def getTouch (e : MouseEventModel) (screenInfo : Option ScreenInfo)
    (env : TargetEnv) (st : SimState) : Option (List Touch) × SimState :=
  match calculateCoordinates ⟨e.clientX, e.clientY, e.type, e.button⟩ screenInfo env with
  | none => (none, st)
  | some touchOnClient =>
    let touch := touchOnClient.touch
    if !e.ctrlKey then
      (some [touch], ⟨false, none, false⟩)
    else
      let point := touch.position.point
      let screenSize := touch.position.screenSize
      let st1 : SimState :=
        if !st.multiTouchActive then
          if e.shiftKey then
            { st with multiTouchCenter := some point, multiTouchShift := true }
          else
            { st with multiTouchCenter := some (Point.mk
                (touchOnClient.clientWidth / 2) (touchOnClient.clientHeight / 2)) }
        else st
      let st2 := { st1 with multiTouchActive := true }
      let opposite : Option Point :=
        if st2.multiTouchShift ∧ st2.multiTouchCenter.isSome then
          let center := st2.multiTouchCenter.getD ⟨0, 0⟩
          let oppoX := 2 * center.x - point.x
          let oppoY := 2 * center.y - point.y
          if oppoX ≤ screenSize.width ∧ 0 ≤ oppoX ∧ oppoY ≤ screenSize.height ∧ 0 ≤ oppoY
          then some ⟨oppoX, oppoY⟩
          else none
        else
          some ⟨touchOnClient.clientWidth - point.x, touchOnClient.clientHeight - point.y⟩
      match opposite with
      | some oppo =>
          (some [touch, ⟨touch.action, ⟨oppo, screenSize⟩, touch.buttons⟩], st2)
      | none => (some [touch], st2)

/-! ### Dirty-region tracking -/

/-- `updateDirty(topLeft, bottomRight)` of TouchHandler.ts on the static
`dirtyPlace` array (empty, or the two points `[topLeft, bottomRight]`). -/
def updateDirty (dirty : List Point) (topLeft bottomRight : Point) : List Point :=
  if dirty.length = 0 then [topLeft, bottomRight]
  else
    let currentTopLeft := dirty.getD 0 ⟨0, 0⟩
    let currentBottomRight := dirty.getD 1 ⟨0, 0⟩
    [⟨min currentTopLeft.x topLeft.x, min currentTopLeft.y topLeft.y⟩,
     ⟨max currentBottomRight.x bottomRight.x, max currentBottomRight.y bottomRight.y⟩]

/-- The arguments of the single `ctx.clearRect(x, y, w, h)` call issued by
`clearCanvas`. -/
structure ClearRect where
  x : ℚ
  y : ℚ
  w : ℚ
  h : ℚ
deriving DecidableEq, Repr

/-- `clearCanvas(target)` of TouchHandler.ts.  The drawing context is
modelled as available (`target.getContext` succeeds); the first component is
the `clearRect` call issued, if any, and the second is the `dirtyPlace`
state after the call — which the source leaves untouched. -/
def clearCanvas (clientWidth clientHeight : ℚ) (dirty : List Point) :
    Option ClearRect × List Point :=
  if dirty.length ≠ 0 then
    let topLeft := dirty.getD 0 ⟨0, 0⟩
    let bottomRight := dirty.getD 1 ⟨0, 0⟩
    let x := max topLeft.x 0
    let y := max topLeft.y 0
    let w := min clientWidth (bottomRight.x - x)
    let h := min clientHeight (bottomRight.y - y)
    (some ⟨x, y, w, h⟩, dirty)
  else (none, dirty)

/-! ### Touch path: `formatTouchEvent` -/

/-- One entry of `e.changedTouches`: its raw identifier, client coordinates,
normalized force, and the identity of the element the touch started on
(elements are abstracted to natural-number identities). -/
structure TouchPoint where
  identifier : ℕ
  clientX : ℚ
  clientY : ℚ
  force : ℚ
  target : ℕ
deriving DecidableEq, Repr

/-- A `TouchEvent` as consumed by `formatTouchEvent`: its type and its
changed-touches list. -/
structure TouchEventModel where
  type : String
  changedTouches : List TouchPoint
deriving DecidableEq, Repr

/-- `TouchControlEvent` of src/controlEvent/TouchControlEvent.ts (not under
src/), modelled from the spec as the NormalizedTouchEvent record
`{action, pointerId, position, pressure, buttons}`. -/
structure TouchControlEvent where
  action : ℕ
  pointerId : ℕ
  position : Position
  pressure : ℚ
  buttons : Option ℕ
deriving DecidableEq, Repr

/-- The `for` loop of `formatTouchEvent`: walks `changedTouches`, threading
the allocator state.  `getPointerId` runs for every changed touch; the
`touch.target !== tag` check then skips (`continue`) non-matching touches
before coordinate mapping and event emission. -/
def formatTouchEventLoop (type : String) (screenInfo : Option ScreenInfo) (tag : ℕ)
    (env : TargetEnv) : List TouchPoint → AllocState → List TouchControlEvent × AllocState
  | [], s => ([], s)
  | touch :: rest, s =>
    let acquired := getPointerId type touch.identifier s
    let pointerId := acquired.1
    let s1 := acquired.2
    if touch.target ≠ tag then
      formatTouchEventLoop type screenInfo tag env rest s1
    else
      match calculateCoordinates ⟨touch.clientX, touch.clientY, type, 0⟩ screenInfo env with
      | some event =>
          let restResult := formatTouchEventLoop type screenInfo tag env rest s1
          (⟨event.touch.action, pointerId, event.touch.position,
            touch.force * 255, event.touch.buttons⟩ :: restResult.1,
           restResult.2)
      | none => formatTouchEventLoop type screenInfo tag env rest s1

/-- `formatTouchEvent(e, screenInfo, tag)` of TouchHandler.ts: runs the loop
over `changedTouches` and returns the collected events, or `none` when the
batch yields no events (which also covers an empty `changedTouches`). -/
def formatTouchEvent (e : TouchEventModel) (screenInfo : Option ScreenInfo)
    (tag : ℕ) (env : TargetEnv) (s : AllocState) :
    Option (List TouchControlEvent) × AllocState :=
  let result := formatTouchEventLoop e.type screenInfo tag env e.changedTouches s
  (if result.1.length ≠ 0 then some result.1 else none, result.2)

/-! ### IEEE special-value model for the zero-layout-size case

The `ℚ` model above assumes every division has a nonzero divisor.  When the
target element has zero layout size, the source's arithmetic produces
`Infinity`/`NaN`; `JSNum` models a JavaScript number symbolically as either
an exact finite rational or one of the IEEE special values, with the exact
IEEE rules for the operations `calculateCoordinates` performs (negative
zero never arises on the path studied). -/

inductive JSNum where
  | fin (q : ℚ)
  | posInf
  | negInf
  | nan
deriving DecidableEq, Repr

/-- IEEE addition on `JSNum`. -/
def jsAdd : JSNum → JSNum → JSNum
  | .fin a, .fin b => .fin (a + b)
  | .fin _, .posInf => .posInf
  | .fin _, .negInf => .negInf
  | .posInf, .fin _ => .posInf
  | .negInf, .fin _ => .negInf
  | .posInf, .posInf => .posInf
  | .negInf, .negInf => .negInf
  | _, _ => .nan

/-- IEEE subtraction on `JSNum`. -/
def jsSub : JSNum → JSNum → JSNum
  | .fin a, .fin b => .fin (a - b)
  | .fin _, .posInf => .negInf
  | .fin _, .negInf => .posInf
  | .posInf, .fin _ => .posInf
  | .negInf, .fin _ => .negInf
  | .posInf, .negInf => .posInf
  | .negInf, .posInf => .negInf
  | _, _ => .nan

/-- IEEE multiplication on `JSNum`. -/
def jsMul : JSNum → JSNum → JSNum
  | .fin a, .fin b => .fin (a * b)
  | .fin a, .posInf => if 0 < a then .posInf else if a < 0 then .negInf else .nan
  | .fin a, .negInf => if 0 < a then .negInf else if a < 0 then .posInf else .nan
  | .posInf, .fin b => if 0 < b then .posInf else if b < 0 then .negInf else .nan
  | .negInf, .fin b => if 0 < b then .negInf else if b < 0 then .posInf else .nan
  | .posInf, .posInf => .posInf
  | .negInf, .negInf => .posInf
  | .posInf, .negInf => .negInf
  | .negInf, .posInf => .negInf
  | _, _ => .nan

/-- IEEE division on `JSNum` (divisor zero is treated as positive zero,
which is what a zero `clientWidth`/`clientHeight` is in the source). -/
def jsDiv : JSNum → JSNum → JSNum
  | .fin a, .fin b =>
      if b = 0 then (if a = 0 then .nan else if 0 < a then .posInf else .negInf)
      else .fin (a / b)
  | .fin _, .posInf => .fin 0
  | .fin _, .negInf => .fin 0
  | .posInf, .fin b => if b < 0 then .negInf else .posInf
  | .negInf, .fin b => if b < 0 then .posInf else .negInf
  | _, _ => .nan

/-- IEEE `<` on `JSNum`: any comparison with NaN is false. -/
def jsLt : JSNum → JSNum → Bool
  | .fin a, .fin b => a < b
  | .fin _, .posInf => true
  | .negInf, .fin _ => true
  | .negInf, .posInf => true
  | _, _ => false

/-- JavaScript `>` : `a > b` is `b < a`. -/
def jsGt (a b : JSNum) : Bool := jsLt b a

/-- JavaScript `Math.round` on `JSNum`: NaN and infinities pass through. -/
def jsRoundJS : JSNum → JSNum
  | .fin q => .fin (⌊q + 1 / 2⌋ : ℤ)
  | .posInf => .posInf
  | .negInf => .negInf
  | .nan => .nan

/-- JavaScript `Math.ceil` on `JSNum`: NaN and infinities pass through. -/
def jsCeilJS : JSNum → JSNum
  | .fin q => .fin (⌈q⌉ : ℤ)
  | .posInf => .posInf
  | .negInf => .negInf
  | .nan => .nan

/-- The result record of `calculateCoordinatesJS`: the effective client box
and the computed device coordinates, all as JS numbers (the action and
buttons fields are exact). -/
structure TouchOnClientJS where
  clientWidth : JSNum
  clientHeight : JSNum
  x : JSNum
  y : JSNum
  action : ℕ
  buttons : Option ℕ
deriving DecidableEq, Repr

/-- `calculateCoordinates(e, screenInfo)` of TouchHandler.ts again, but with
every arithmetic operation performed in the `JSNum` model, so that the
division-by-zero behaviour of a zero-size target element is captured
faithfully.  On inputs where all divisors are nonzero the two models agree;
this one decides what the source does when `clientWidth`/`clientHeight` is
zero. -/
def calculateCoordinatesJS (e : CommonTouchAndMouse) (screenInfo : Option ScreenInfo)
    (env : TargetEnv) : Option TouchOnClientJS :=
  match EVENT_ACTION_MAP e.type, screenInfo with
  | some action, some si =>
    let width : JSNum := .fin si.videoSize.width
    let height : JSNum := .fin si.videoSize.height
    let clientWidth : JSNum := .fin env.clientWidth
    let clientHeight : JSNum := .fin env.clientHeight
    let touchX := jsAdd (jsSub (.fin e.clientX) (.fin env.offsetLeft)) (.fin env.scrollLeft)
    let touchY := jsAdd (jsSub (.fin e.clientY) (.fin env.offsetTop)) (.fin env.scrollTop)
    let eps : JSNum := .fin 100000
    let aspect := jsDiv width height
    let shouldBe := jsRoundJS (jsMul eps aspect)
    let haveNow := jsRoundJS (jsDiv (jsMul eps clientWidth) clientHeight)
    if jsGt shouldBe haveNow then
      let realHeight := jsCeilJS (jsDiv clientWidth aspect)
      let top := jsDiv (jsSub clientHeight realHeight) (.fin 2)
      if jsLt touchY top || jsGt touchY (jsAdd top realHeight) then none
      else
        let touchY := jsSub touchY top
        let clientHeight := realHeight
        some ⟨clientWidth, clientHeight,
              jsDiv (jsMul touchX width) clientWidth,
              jsDiv (jsMul touchY height) clientHeight,
              action, BUTTONS_MAP e.button⟩
    else if jsLt shouldBe haveNow then
      let realWidth := jsCeilJS (jsMul clientHeight aspect)
      let left := jsDiv (jsSub clientWidth realWidth) (.fin 2)
      if jsLt touchX left || jsGt touchX (jsAdd left realWidth) then none
      else
        let touchX := jsSub touchX left
        let clientWidth := realWidth
        some ⟨clientWidth, clientHeight,
              jsDiv (jsMul touchX width) clientWidth,
              jsDiv (jsMul touchY height) clientHeight,
              action, BUTTONS_MAP e.button⟩
    else
      some ⟨clientWidth, clientHeight,
            jsDiv (jsMul touchX width) clientWidth,
            jsDiv (jsMul touchY height) clientHeight,
            action, BUTTONS_MAP e.button⟩
  | _, _ => none

/-! ### Helper lemmas: association-list maps and the free-slot search -/

theorem mapHas_iff (m : List (ℕ × ℕ)) (k : ℕ) :
    mapHas m k = true ↔ k ∈ m.map Prod.fst := by
  simp [mapHas, List.any_eq_true, List.mem_map]

theorem exists_free_le_length (m : List (ℕ × ℕ)) :
    ∃ n, n ≤ m.length ∧ mapHas m n = false := by
  by_contra hcon
  push_neg at hcon
  have hall : ∀ n, n ≤ m.length → mapHas m n = true := by
    intro n hn
    cases h : mapHas m n with
    | false => exact absurd h (hcon n hn)
    | true => rfl
  have hsub : Finset.range (m.length + 1) ⊆ (m.map Prod.fst).toFinset := by
    intro x hx
    rw [Finset.mem_range] at hx
    rw [List.mem_toFinset]
    exact (mapHas_iff m x).mp (hall x (Nat.lt_succ_iff.mp hx))
  have hcard := Finset.card_le_card hsub
  rw [Finset.card_range] at hcard
  have hle := List.toFinset_card_le (m.map Prod.fst)
  rw [List.length_map] at hle
  omega

theorem findFree_spec (m : List (ℕ × ℕ)) (fuel : ℕ) :
    ∀ p, (∃ n, p ≤ n ∧ n ≤ p + fuel ∧ mapHas m n = false) →
      mapHas m (findFree m fuel p) = false ∧
      ∀ q, p ≤ q → q < findFree m fuel p → mapHas m q = true := by
  induction fuel with
  | zero =>
    intro p hex
    obtain ⟨n, hpn, hnp, hfree⟩ := hex
    have heq : n = p := by omega
    subst heq
    refine ⟨by simpa [findFree] using hfree, ?_⟩
    intro q hq hq2
    simp only [findFree] at hq2
    exact absurd hq2 (by omega)
  | succ fuel ih =>
    intro p hex
    by_cases hp : mapHas m p = true
    · have hstep : findFree m (fuel + 1) p = findFree m fuel (p + 1) := by
        simp [findFree, hp]
      rw [hstep]
      have hex2 : ∃ n, p + 1 ≤ n ∧ n ≤ (p + 1) + fuel ∧ mapHas m n = false := by
        obtain ⟨n, hpn, hnp, hfree⟩ := hex
        rcases Nat.eq_or_lt_of_le hpn with heq | hlt
        · exfalso
          rw [← heq] at hfree
          rw [hp] at hfree
          cases hfree
        · exact ⟨n, hlt, by omega, hfree⟩
      obtain ⟨h1, h2⟩ := ih (p + 1) hex2
      refine ⟨h1, ?_⟩
      intro q hq hq2
      rcases Nat.eq_or_lt_of_le hq with heq | hlt
      · rw [← heq]; exact hp
      · exact h2 q hlt hq2
    · have hpf : mapHas m p = false := by
        cases h : mapHas m p with
        | false => rfl
        | true => exact absurd h hp
      have hstep : findFree m (fuel + 1) p = p := by
        simp [findFree, hpf]
      rw [hstep]
      refine ⟨hpf, ?_⟩
      intro q hq hq2
      exact absurd hq2 (by omega)

theorem lowestFree_spec (m : List (ℕ × ℕ)) :
    mapHas m (findFree m m.length 0) = false ∧
    ∀ q, q < findFree m m.length 0 → mapHas m q = true := by
  obtain ⟨n, hn, hfree⟩ := exists_free_le_length m
  obtain ⟨h1, h2⟩ := findFree_spec m m.length 0 ⟨n, Nat.zero_le n, by omega, hfree⟩
  exact ⟨h1, fun q hq => h2 q (Nat.zero_le q) hq⟩

theorem find?_append_free (m : List (ℕ × ℕ)) (k v : ℕ) (h : mapHas m k = false) :
    (m ++ [(k, v)]).find? (fun kv => kv.1 == k) = some (k, v) := by
  induction m with
  | nil => simp [List.find?]
  | cons hd tl ih =>
    simp only [mapHas, List.any_cons, Bool.or_eq_false_iff, beq_eq_false_iff_ne] at h
    rw [List.cons_append]
    rw [List.find?_cons_of_neg]
    · exact ih (by simpa [mapHas] using h.2)
    · simp [h.1]

theorem find?_map_replace (m : List (ℕ × ℕ)) (k v : ℕ) (h : mapHas m k = true) :
    (m.map (fun kv => if kv.1 == k then (k, v) else kv)).find? (fun kv => kv.1 == k) =
      some (k, v) := by
  induction m with
  | nil => simp [mapHas] at h
  | cons hd tl ih =>
    by_cases hhd : hd.1 = k
    · rw [List.map_cons]
      rw [List.find?_cons_of_pos]
      · simp [hhd]
      · simp [hhd]
    · rw [List.map_cons]
      rw [List.find?_cons_of_neg]
      · apply ih
        simp only [mapHas, List.any_cons, Bool.or_eq_true, beq_iff_eq] at h
        rcases h with h | h
        · exact absurd h hhd
        · simpa [mapHas] using h
      · simp [hhd]

theorem mapGet_mapSet_self (m : List (ℕ × ℕ)) (k v : ℕ) :
    mapGet (mapSet m k v) k = some v := by
  rw [mapGet, mapSet]
  by_cases h : mapHas m k = true
  · rw [if_pos h, find?_map_replace m k v h]
    rfl
  · have hf : mapHas m k = false := by
      cases h2 : mapHas m k with
      | false => rfl
      | true => exact absurd h2 h
    rw [if_neg, find?_append_free m k v hf]
    · rfl
    · simp [hf]

theorem mapGet_mapDelete_self (m : List (ℕ × ℕ)) (k : ℕ) :
    mapGet (mapDelete m k) k = none := by
  have hfind : (m.filter (fun kv => kv.1 != k)).find? (fun kv => kv.1 == k) = none := by
    rw [List.find?_eq_none]
    intro x hx
    have := (List.mem_filter.mp hx).2
    simpa using this
  simp [mapGet, mapDelete, hfind]

/-! ### The claims -/

/-- Claim C1 (refuted; code bug): the allocator invariant fails.  The
free-slot search scans `idToPointerMap` (keyed by raw identifiers) instead
of `pointerToIdMap` (keyed by pointer ids): acquiring raw identifiers 5 and
then 7 from empty maps assigns pointer id 0 twice — the second allocation
returns 0 although 0 is already in use as a pointer id (it maps to raw 5) —
and afterwards `idToPointerMap` sends 5 to 0 while `pointerToIdMap` sends 0
to 7, so the maps are not inverses of each other. -/
theorem c1_pointer_id_reuse_bug :
    (getPointerId "touchstart" 5 ⟨[], []⟩).1 = 0 ∧
    mapGet (getPointerId "touchstart" 5 ⟨[], []⟩).2.pointerToIdMap 0 = some 5 ∧
    (getPointerId "touchstart" 7 (getPointerId "touchstart" 5 ⟨[], []⟩).2).1 = 0 ∧
    mapGet (getPointerId "touchstart" 7
      (getPointerId "touchstart" 5 ⟨[], []⟩).2).2.idToPointerMap 5 = some 0 ∧
    mapGet (getPointerId "touchstart" 7
      (getPointerId "touchstart" 5 ⟨[], []⟩).2).2.pointerToIdMap 0 = some 7 := by
  decide

/-- Claim C2, counterexample: `clearCanvas` does not reset the tracked
dirty-region state — with region `[(0,0),(10,10)]` tracked and a 100×100
surface, the region is still tracked after the call. -/
theorem c2_clear_does_not_reset_cex :
    ¬((clearCanvas 100 100 [⟨0, 0⟩, ⟨10, 10⟩]).2 = []) := by
  simp [clearCanvas]

/-- Claim C2, amended: when a region `[tl, br]` is tracked and lies within
the surface's drawable bounds, `clearCanvas` clears exactly that region
(which is its intersection with the bounds), but the tracked dirty-region
state is left unchanged — it is not reset to empty. -/
theorem c2_clear_within_bounds (tl br : Point) (cw ch : ℚ)
    (hx : 0 ≤ tl.x) (hy : 0 ≤ tl.y) (hbx : br.x ≤ cw) (hby : br.y ≤ ch) :
    clearCanvas cw ch [tl, br] = (some ⟨tl.x, tl.y, br.x - tl.x, br.y - tl.y⟩, [tl, br]) := by
  have h1 : min cw (br.x - max tl.x 0) = br.x - tl.x := by
    rw [max_eq_left hx]; exact min_eq_right (by linarith)
  have h2 : min ch (br.y - max tl.y 0) = br.y - tl.y := by
    rw [max_eq_left hy]; exact min_eq_right (by linarith)
  simp [clearCanvas, h1, h2, max_eq_left hx, max_eq_left hy]
  exact ⟨by linarith, by linarith⟩

/-- Claim C2, witness: the amended statement at region `[(1,2),(3,4)]` on a
100×100 surface. -/
theorem c2_clear_within_bounds_witness :
    (0 : ℚ) ≤ 1 ∧ (0 : ℚ) ≤ 2 ∧ (3 : ℚ) ≤ 100 ∧ (4 : ℚ) ≤ 100 ∧
    clearCanvas 100 100 [⟨1, 2⟩, ⟨3, 4⟩] = (some ⟨1, 2, 2, 2⟩, [⟨1, 2⟩, ⟨3, 4⟩]) := by
  refine ⟨by norm_num, by norm_num, by norm_num, by norm_num, ?_⟩
  have h := c2_clear_within_bounds ⟨1, 2⟩ ⟨3, 4⟩ 100 100
    (by norm_num) (by norm_num) (by norm_num) (by norm_num)
  norm_num at h
  exact h

/-- Claim C3, counterexample: in center-anchored mode the synthesized
opposite point is NOT always within `[0, videoWidth] × [0, videoHeight]`.
With video 1920×1080 rendered in a 960×540 box, a ctrl-held mouse event at
the box's right edge maps to device point (1920, 0), and the emitted
opposite is `clientSize − point = (960 − 1920, 540 − 0) = (−960, 540)`,
whose x coordinate is negative. -/
theorem c3_opposite_not_in_range_cex :
    (getTouch ⟨960, 0, "mousemove", 0, true, false⟩ (some ⟨⟨1920, 1080⟩⟩)
        ⟨0, 0, 0, 0, 960, 540⟩ ⟨false, none, false⟩).1 =
      some [⟨ACTION_MOVE, ⟨⟨1920, 0⟩, ⟨1920, 1080⟩⟩, some 17⟩,
            ⟨ACTION_MOVE, ⟨⟨-960, 540⟩, ⟨1920, 1080⟩⟩, some 17⟩] ∧
    ¬((0 : ℚ) ≤ -960) := by
  constructor
  · norm_num [getTouch, calculateCoordinates, EVENT_ACTION_MAP, jsRound, BUTTONS_MAP, ACTION_MOVE]
  · norm_num

/-- Claim C3, amended: in center-anchored (non-shift) mode with ctrl held,
a second contact is always emitted and its point is
`(clientWidth − x, clientHeight − y)` — the effective client box dimensions
minus the device-space primary point, with the primary's action and buttons
— but this point need not lie within `[0, videoWidth] × [0, videoHeight]`
(see the counterexample). -/
theorem c3_center_anchored_opposite (e : MouseEventModel) (si : Option ScreenInfo)
    (env : TargetEnv) (st : SimState) (toc : TouchOnClient)
    (hctrl : e.ctrlKey = true) (hshift : e.shiftKey = false)
    (hstshift : st.multiTouchShift = false)
    (hcalc : calculateCoordinates ⟨e.clientX, e.clientY, e.type, e.button⟩ si env = some toc) :
    (getTouch e si env st).1 =
      some [toc.touch,
            ⟨toc.touch.action,
             ⟨⟨toc.clientWidth - toc.touch.position.point.x,
               toc.clientHeight - toc.touch.position.point.y⟩,
              toc.touch.position.screenSize⟩,
             toc.touch.buttons⟩] := by
  cases hact : st.multiTouchActive
  · simp [getTouch, hcalc, hctrl, hshift, hstshift, hact]
  · simp [getTouch, hcalc, hctrl, hshift, hstshift, hact]

/-- Claim C3, witness: the amended statement at a ctrl-held mouse event
(60, 60) on a 100×100 box showing 100×100 video: two touches, the second at
(40, 40). -/
theorem c3_center_anchored_opposite_witness :
    calculateCoordinates ⟨60, 60, "mousemove", 0⟩ (some ⟨⟨100, 100⟩⟩) ⟨0, 0, 0, 0, 100, 100⟩ =
      some ⟨100, 100, ⟨ACTION_MOVE, ⟨⟨60, 60⟩, ⟨100, 100⟩⟩, some 17⟩⟩ ∧
    (getTouch ⟨60, 60, "mousemove", 0, true, false⟩ (some ⟨⟨100, 100⟩⟩)
        ⟨0, 0, 0, 0, 100, 100⟩ ⟨false, none, false⟩).1 =
      some [⟨ACTION_MOVE, ⟨⟨60, 60⟩, ⟨100, 100⟩⟩, some 17⟩,
            ⟨ACTION_MOVE, ⟨⟨40, 40⟩, ⟨100, 100⟩⟩, some 17⟩] := by
  have hcalc : calculateCoordinates ⟨60, 60, "mousemove", 0⟩ (some ⟨⟨100, 100⟩⟩)
      ⟨0, 0, 0, 0, 100, 100⟩ =
      some ⟨100, 100, ⟨ACTION_MOVE, ⟨⟨60, 60⟩, ⟨100, 100⟩⟩, some 17⟩⟩ := by
    norm_num [calculateCoordinates, EVENT_ACTION_MAP, jsRound, BUTTONS_MAP, ACTION_MOVE]
  refine ⟨hcalc, ?_⟩
  have h := c3_center_anchored_opposite ⟨60, 60, "mousemove", 0, true, false⟩
    (some ⟨⟨100, 100⟩⟩) ⟨0, 0, 0, 0, 100, 100⟩ ⟨false, none, false⟩
    ⟨100, 100, ⟨ACTION_MOVE, ⟨⟨60, 60⟩, ⟨100, 100⟩⟩, some 17⟩⟩ rfl rfl rfl hcalc
  norm_num at h
  exact h

/-- Claim C4 (confirmed): with video 1920×1080 and a square 1000×1000
target box the box is letterboxed top/bottom with
`realHeight = ⌈1000 / (1920/1080)⌉ = 563` and top margin
`(1000 − 563)/2`; any client point whose `touchY` lies inside that margin
maps to `none`, and the point at the exact vertical center of the box maps
to a device y of exactly 540 = 1080/2. -/
theorem c4_letterbox_margin_and_center (cx cy : ℚ) (hy0 : 0 ≤ cy)
    (hy : cy < (1000 - ((⌈(1000 : ℚ) / ((1920 : ℚ) / 1080)⌉ : ℤ) : ℚ)) / 2) :
    calculateCoordinates ⟨cx, cy, "touchstart", 0⟩ (some ⟨⟨1920, 1080⟩⟩)
      ⟨0, 0, 0, 0, 1000, 1000⟩ = none ∧
    (calculateCoordinates ⟨500, 500, "touchstart", 0⟩ (some ⟨⟨1920, 1080⟩⟩)
        ⟨0, 0, 0, 0, 1000, 1000⟩).map (fun r => r.touch.position.point.y) = some 540 := by
  have hceil : (⌈(1000 : ℚ) / ((1920 : ℚ) / 1080)⌉ : ℤ) = 563 := by
    rw [show ((1000 : ℚ) / ((1920 : ℚ) / 1080)) = 1125 / 2 by norm_num]
    rw [Int.ceil_eq_iff]
    norm_num
  have hceil2 : (⌈(1125 / 2 : ℚ)⌉ : ℤ) = 563 := by
    rw [Int.ceil_eq_iff]
    norm_num
  rw [hceil] at hy
  norm_num at hy
  constructor
  · norm_num [calculateCoordinates, EVENT_ACTION_MAP, jsRound, hceil2]
    intro hcon
    exfalso
    linarith
  · norm_num [calculateCoordinates, EVENT_ACTION_MAP, jsRound, hceil2, BUTTONS_MAP]

/-- Claim C4, witness: the statement at the client point (500, 100), whose
`touchY = 100` lies inside the top margin `[0, 218.5)`. -/
theorem c4_letterbox_margin_and_center_witness :
    (0 : ℚ) ≤ 100 ∧
    (100 : ℚ) < (1000 - ((⌈(1000 : ℚ) / ((1920 : ℚ) / 1080)⌉ : ℤ) : ℚ)) / 2 ∧
    (calculateCoordinates ⟨500, 100, "touchstart", 0⟩ (some ⟨⟨1920, 1080⟩⟩)
        ⟨0, 0, 0, 0, 1000, 1000⟩ = none ∧
     (calculateCoordinates ⟨500, 500, "touchstart", 0⟩ (some ⟨⟨1920, 1080⟩⟩)
         ⟨0, 0, 0, 0, 1000, 1000⟩).map (fun r => r.touch.position.point.y) = some 540) := by
  have hceil : (⌈(1000 : ℚ) / ((1920 : ℚ) / 1080)⌉ : ℤ) = 563 := by
    rw [show ((1000 : ℚ) / ((1920 : ℚ) / 1080)) = 1125 / 2 by norm_num]
    rw [Int.ceil_eq_iff]
    norm_num
  have hy : (100 : ℚ) < (1000 - ((⌈(1000 : ℚ) / ((1920 : ℚ) / 1080)⌉ : ℤ) : ℚ)) / 2 := by
    rw [hceil]; norm_num
  exact ⟨by norm_num, hy, c4_letterbox_margin_and_center 500 100 (by norm_num) hy⟩

/-- Claim C5, counterexample: a changed contact whose target (element 7)
does not match the target element (tag 3) does NOT leave the allocator maps
unchanged — `getPointerId` runs before the target check, so raw identifier
5 gets pointer id 0 allocated anyway. -/
theorem c5_nonmatching_target_allocates_cex :
    (7 : ℕ) ≠ 3 ∧
    (formatTouchEvent ⟨"touchstart", [⟨5, 10, 10, 1, 7⟩]⟩ (some ⟨⟨100, 100⟩⟩) 3
        ⟨0, 0, 0, 0, 100, 100⟩ ⟨[], []⟩).2.idToPointerMap = [(5, 0)] := by
  constructor
  · decide
  · decide

/-- Claim C5, amended: `formatTouchEvent` performs pointer-id
allocation/release for every changed contact regardless of its target; the
target check only gates coordinate mapping and event emission.  For a
single-contact batch whose contact's target does not match, no event is
emitted but the allocator state is exactly the state after `getPointerId`
on that contact's raw identifier. -/
theorem c5_single_nonmatching_contact (ty : String) (si : Option ScreenInfo)
    (tag : ℕ) (env : TargetEnv) (s : AllocState) (t : TouchPoint)
    (h : t.target ≠ tag) :
    formatTouchEvent ⟨ty, [t]⟩ si tag env s = (none, (getPointerId ty t.identifier s).2) := by
  simp [formatTouchEvent, formatTouchEventLoop, h]

/-- Claim C5, witness: the amended statement at a single touchstart contact
with raw identifier 5 and target 7 ≠ tag 3 starting from empty maps. -/
theorem c5_single_nonmatching_contact_witness :
    (7 : ℕ) ≠ 3 ∧
    formatTouchEvent ⟨"touchstart", [⟨5, 10, 10, 1, 7⟩]⟩ (some ⟨⟨100, 100⟩⟩) 3
        ⟨0, 0, 0, 0, 100, 100⟩ ⟨[], []⟩ =
      (none, (getPointerId "touchstart" 5 ⟨[], []⟩).2) :=
  ⟨by decide, c5_single_nonmatching_contact "touchstart" (some ⟨⟨100, 100⟩⟩) 3
    ⟨0, 0, 0, 0, 100, 100⟩ ⟨[], []⟩ ⟨5, 10, 10, 1, 7⟩ (by decide)⟩

/-- Claim C6 (refuted; code bug): a mouse event on a target element with
zero layout size (clientWidth = clientHeight = 0) is NOT mapped to `null`.
The aspect comparison computes `Math.round(1e5·0/0) = NaN`, both letterbox
comparisons with NaN are false, and the final scaling divides by zero:
the source returns a touch record with infinite coordinates instead of
rejecting the event. -/
theorem c6_zero_size_returns_record :
    calculateCoordinatesJS ⟨10, 10, "mousedown", 0⟩ (some ⟨⟨1920, 1080⟩⟩)
        ⟨0, 0, 0, 0, 0, 0⟩ =
      some ⟨JSNum.fin 0, JSNum.fin 0, JSNum.posInf, JSNum.posInf, ACTION_DOWN, some 17⟩ := by
  norm_num [calculateCoordinatesJS, EVENT_ACTION_MAP, jsAdd, jsSub, jsMul, jsDiv, jsLt, jsGt,
    jsRoundJS, jsCeilJS, BUTTONS_MAP]

/-- Claim C7 (confirmed): while simulation is active in shift-anchored mode
with center `c` and ctrl held, the synthesized opposite point is
`2·c − point` in device-video coordinates; it is emitted as a second
contact (with the primary's action and buttons) exactly when it lies within
`[0, videoWidth] × [0, videoHeight]`, and otherwise only the primary touch
is returned. -/
theorem c7_shift_anchored_reflection (e : MouseEventModel) (si : Option ScreenInfo)
    (env : TargetEnv) (st : SimState) (toc : TouchOnClient) (c : Point)
    (hctrl : e.ctrlKey = true)
    (hact : st.multiTouchActive = true)
    (hshift : st.multiTouchShift = true)
    (hcenter : st.multiTouchCenter = some c)
    (hcalc : calculateCoordinates ⟨e.clientX, e.clientY, e.type, e.button⟩ si env = some toc) :
    ((2 * c.x - toc.touch.position.point.x ≤ toc.touch.position.screenSize.width ∧
      0 ≤ 2 * c.x - toc.touch.position.point.x ∧
      2 * c.y - toc.touch.position.point.y ≤ toc.touch.position.screenSize.height ∧
      0 ≤ 2 * c.y - toc.touch.position.point.y) →
      (getTouch e si env st).1 =
        some [toc.touch,
              ⟨toc.touch.action,
               ⟨⟨2 * c.x - toc.touch.position.point.x, 2 * c.y - toc.touch.position.point.y⟩,
                toc.touch.position.screenSize⟩,
               toc.touch.buttons⟩]) ∧
    (¬(2 * c.x - toc.touch.position.point.x ≤ toc.touch.position.screenSize.width ∧
       0 ≤ 2 * c.x - toc.touch.position.point.x ∧
       2 * c.y - toc.touch.position.point.y ≤ toc.touch.position.screenSize.height ∧
       0 ≤ 2 * c.y - toc.touch.position.point.y) →
      (getTouch e si env st).1 = some [toc.touch]) := by
  constructor
  · intro hin
    simp [getTouch, hcalc, hctrl, hact, hshift, hcenter, hin]
  · intro hout
    have hcond : ¬(2 * c.x ≤ toc.touch.position.screenSize.width + toc.touch.position.point.x ∧
        toc.touch.position.point.x ≤ 2 * c.x ∧
        2 * c.y ≤ toc.touch.position.screenSize.height + toc.touch.position.point.y ∧
        toc.touch.position.point.y ≤ 2 * c.y) := fun hc =>
      hout ⟨by linarith [hc.1], by linarith [hc.2.1], by linarith [hc.2.2.1], by linarith [hc.2.2.2]⟩
    simp [getTouch, hcalc, hctrl, hact, hshift, hcenter, hcond]

/-- Claim C7, witness: shift-anchored simulation with center (50, 50) on a
100×100 video; the event at (60, 60) reflects to (40, 40), in range, so two
touches are returned. -/
theorem c7_shift_anchored_reflection_witness :
    calculateCoordinates ⟨60, 60, "mousemove", 0⟩ (some ⟨⟨100, 100⟩⟩) ⟨0, 0, 0, 0, 100, 100⟩ =
      some ⟨100, 100, ⟨ACTION_MOVE, ⟨⟨60, 60⟩, ⟨100, 100⟩⟩, some 17⟩⟩ ∧
    (getTouch ⟨60, 60, "mousemove", 0, true, true⟩ (some ⟨⟨100, 100⟩⟩)
        ⟨0, 0, 0, 0, 100, 100⟩ ⟨true, some ⟨50, 50⟩, true⟩).1 =
      some [⟨ACTION_MOVE, ⟨⟨60, 60⟩, ⟨100, 100⟩⟩, some 17⟩,
            ⟨ACTION_MOVE, ⟨⟨40, 40⟩, ⟨100, 100⟩⟩, some 17⟩] := by
  have hcalc : calculateCoordinates ⟨60, 60, "mousemove", 0⟩ (some ⟨⟨100, 100⟩⟩)
      ⟨0, 0, 0, 0, 100, 100⟩ =
      some ⟨100, 100, ⟨ACTION_MOVE, ⟨⟨60, 60⟩, ⟨100, 100⟩⟩, some 17⟩⟩ := by
    norm_num [calculateCoordinates, EVENT_ACTION_MAP, jsRound, BUTTONS_MAP, ACTION_MOVE]
  refine ⟨hcalc, ?_⟩
  have h := (c7_shift_anchored_reflection ⟨60, 60, "mousemove", 0, true, true⟩
    (some ⟨⟨100, 100⟩⟩) ⟨0, 0, 0, 0, 100, 100⟩ ⟨true, some ⟨50, 50⟩, true⟩
    ⟨100, 100, ⟨ACTION_MOVE, ⟨⟨60, 60⟩, ⟨100, 100⟩⟩, some 17⟩⟩ ⟨50, 50⟩
    rfl rfl rfl rfl hcalc).1 (by norm_num)
  norm_num at h
  exact h

/-- Claim C8 (confirmed): a mouse event without ctrl, whatever the prior
simulation state, yields exactly the single mapped touch — no simulated
opposite — and resets the whole simulation state (active flag false,
center unset, shift flag false). -/
theorem c8_no_ctrl_resets_state (e : MouseEventModel) (si : Option ScreenInfo)
    (env : TargetEnv) (st : SimState) (toc : TouchOnClient)
    (hctrl : e.ctrlKey = false)
    (hcalc : calculateCoordinates ⟨e.clientX, e.clientY, e.type, e.button⟩ si env = some toc) :
    getTouch e si env st = (some [toc.touch], ⟨false, none, false⟩) := by
  simp [getTouch, hcalc, hctrl]

/-- Claim C8, witness: a ctrl-free event at (60, 60) with a previously
active shift-anchored simulation: one touch, state reset. -/
theorem c8_no_ctrl_resets_state_witness :
    calculateCoordinates ⟨60, 60, "mousemove", 0⟩ (some ⟨⟨100, 100⟩⟩) ⟨0, 0, 0, 0, 100, 100⟩ =
      some ⟨100, 100, ⟨ACTION_MOVE, ⟨⟨60, 60⟩, ⟨100, 100⟩⟩, some 17⟩⟩ ∧
    getTouch ⟨60, 60, "mousemove", 0, false, false⟩ (some ⟨⟨100, 100⟩⟩)
        ⟨0, 0, 0, 0, 100, 100⟩ ⟨true, some ⟨50, 50⟩, true⟩ =
      (some [⟨ACTION_MOVE, ⟨⟨60, 60⟩, ⟨100, 100⟩⟩, some 17⟩], ⟨false, none, false⟩) := by
  have hcalc : calculateCoordinates ⟨60, 60, "mousemove", 0⟩ (some ⟨⟨100, 100⟩⟩)
      ⟨0, 0, 0, 0, 100, 100⟩ =
      some ⟨100, 100, ⟨ACTION_MOVE, ⟨⟨60, 60⟩, ⟨100, 100⟩⟩, some 17⟩⟩ := by
    norm_num [calculateCoordinates, EVENT_ACTION_MAP, jsRound, BUTTONS_MAP, ACTION_MOVE]
  exact ⟨hcalc, c8_no_ctrl_resets_state ⟨60, 60, "mousemove", 0, false, false⟩
    (some ⟨⟨100, 100⟩⟩) ⟨0, 0, 0, 0, 100, 100⟩ ⟨true, some ⟨50, 50⟩, true⟩
    ⟨100, 100, ⟨ACTION_MOVE, ⟨⟨60, 60⟩, ⟨100, 100⟩⟩, some 17⟩⟩ rfl hcalc⟩

/-- Claim C9 (confirmed): for a raw identifier currently mapped to pointer
id `p`, `getPointerId` returns `p` for any event type; for a termination
type the mapping is removed from both maps (only after the id is
determined, so the call still returns `p`); for a non-termination type the
maps are unchanged, so acquiring the same raw identifier twice without an
intervening release returns the same pointer id both times. -/
theorem c9_existing_id_and_terminal_release (ty : String) (raw p : ℕ) (s : AllocState)
    (h : mapGet s.idToPointerMap raw = some p) :
    (getPointerId ty raw s).1 = p ∧
    ((ty = "touchend" ∨ ty = "touchcancel") →
      mapGet (getPointerId ty raw s).2.idToPointerMap raw = none ∧
      mapGet (getPointerId ty raw s).2.pointerToIdMap p = none) ∧
    (¬(ty = "touchend" ∨ ty = "touchcancel") → (getPointerId ty raw s).2 = s) := by
  by_cases hty : ty = "touchend" ∨ ty = "touchcancel"
  · refine ⟨?_, fun _ => ⟨?_, ?_⟩, fun hc => absurd hty hc⟩
    · simp [getPointerId, h, hty]
    · simp [getPointerId, h, hty, mapGet_mapDelete_self]
    · simp [getPointerId, h, hty, mapGet_mapDelete_self]
  · refine ⟨?_, fun hc => absurd hc hty, fun _ => ?_⟩
    · simp [getPointerId, h, hty]
    · simp [getPointerId, h, hty]

/-- Claim C9, witness: with raw identifier 5 mapped to pointer id 0, a
touchend still returns 0 and removes the mapping from both maps. -/
theorem c9_existing_id_and_terminal_release_witness :
    mapGet (AllocState.mk [(5, 0)] [(0, 5)]).idToPointerMap 5 = some 0 ∧
    (getPointerId "touchend" 5 ⟨[(5, 0)], [(0, 5)]⟩).1 = 0 ∧
    mapGet (getPointerId "touchend" 5 ⟨[(5, 0)], [(0, 5)]⟩).2.idToPointerMap 5 = none ∧
    mapGet (getPointerId "touchend" 5 ⟨[(5, 0)], [(0, 5)]⟩).2.pointerToIdMap 0 = none := by
  have h : mapGet (AllocState.mk [(5, 0)] [(0, 5)]).idToPointerMap 5 = some 0 := by decide
  have hr := c9_existing_id_and_terminal_release "touchend" 5 0 ⟨[(5, 0)], [(0, 5)]⟩ h
  exact ⟨h, hr.1, (hr.2.1 (Or.inl rfl)).1, (hr.2.1 (Or.inl rfl)).2⟩

/-- Claim C10 (confirmed): a termination-type event for an unmapped raw
identifier allocates a fresh pointer id by the lowest-free search over
`idToPointerMap` (the returned id is free there and every smaller id is
taken), records the mapping in both maps, and the mapping is still present
in the state after the call — the terminal event does not remove it. -/
theorem c10_terminal_unmapped_allocates (ty : String) (raw : ℕ) (s : AllocState)
    (hty : ty = "touchend" ∨ ty = "touchcancel")
    (h : mapGet s.idToPointerMap raw = none) :
    mapHas s.idToPointerMap (getPointerId ty raw s).1 = false ∧
    (∀ q, q < (getPointerId ty raw s).1 → mapHas s.idToPointerMap q = true) ∧
    mapGet (getPointerId ty raw s).2.idToPointerMap raw = some (getPointerId ty raw s).1 ∧
    mapGet (getPointerId ty raw s).2.pointerToIdMap (getPointerId ty raw s).1 = some raw := by
  have hfst : (getPointerId ty raw s).1 = findFree s.idToPointerMap s.idToPointerMap.length 0 := by
    simp [getPointerId, h]
  have hsnd : (getPointerId ty raw s).2 =
      ⟨mapSet s.idToPointerMap raw (getPointerId ty raw s).1,
       mapSet s.pointerToIdMap (getPointerId ty raw s).1 raw⟩ := by
    simp [getPointerId, h]
  obtain ⟨h1, h2⟩ := lowestFree_spec s.idToPointerMap
  refine ⟨?_, ?_, ?_, ?_⟩
  · rw [hfst]; exact h1
  · intro q hq; rw [hfst] at hq; exact h2 q hq
  · rw [hsnd]; exact mapGet_mapSet_self _ _ _
  · rw [hsnd]; exact mapGet_mapSet_self _ _ _

/-- Claim C10, witness: a touchend for unmapped raw identifier 5 on empty
maps allocates pointer id 0 and the mapping is still present afterwards. -/
theorem c10_terminal_unmapped_allocates_witness :
    ("touchend" = "touchend" ∨ "touchend" = "touchcancel") ∧
    mapGet (AllocState.mk [] []).idToPointerMap 5 = none ∧
    mapGet (getPointerId "touchend" 5 ⟨[], []⟩).2.idToPointerMap 5 =
      some (getPointerId "touchend" 5 ⟨[], []⟩).1 ∧
    mapGet (getPointerId "touchend" 5 ⟨[], []⟩).2.pointerToIdMap
      (getPointerId "touchend" 5 ⟨[], []⟩).1 = some 5 := by
  refine ⟨Or.inl rfl, by decide, ?_, ?_⟩
  · exact (c10_terminal_unmapped_allocates "touchend" 5 ⟨[], []⟩ (Or.inl rfl) (by decide)).2.2.1
  · exact (c10_terminal_unmapped_allocates "touchend" 5 ⟨[], []⟩ (Or.inl rfl) (by decide)).2.2.2
